import Mathlib

/-
Verification development for the mcm_archive fleet controller
(src/High-Power/high-power.py and src/Proxy/proxy.py).

The per-worker activity tracker, the output relay, the fleet usage check,
the shutdown coordinator, the per-worker termination watch and the wake
monitor are embedded as executable Lean definitions.  Timed sleeps, timer
starts, config-store writes and socket sends are recorded as explicit
events; values read from shared state by a polling loop are supplied as an
observation list (one entry per poll).
-/

namespace MCM

/-! ## Strings: Python substring test and rstrip -/

/-- Test whether a character is one of the whitespace characters stripped by
the Python rstrip method: space, tab, newline, carriage return, vertical
tab, form feed. -/
def isPySpace (c : Char) : Bool :=
  c == Char.ofNat 32 || c == Char.ofNat 9 || c == Char.ofNat 10 ||
  c == Char.ofNat 13 || c == Char.ofNat 11 || c == Char.ofNat 12

/-- Drop the trailing run of whitespace characters from a character list. -/
def rstripChars (l : List Char) : List Char :=
  (l.reverse.dropWhile isPySpace).reverse

/-- Model of the Python expression line.rstrip(): the line with every
trailing whitespace character removed (high-power.py line 104,
proxy.py line 114). -/
def pyRstrip (s : String) : String :=
  String.mk (rstripChars s.data)

/-- Test whether the second character list starts with the first. -/
def charsStartWith : List Char → List Char → Bool
  | [], _ => true
  | _ :: _, [] => false
  | a :: pat, b :: s => a == b && charsStartWith pat s

/-- Test whether the first character list occurs contiguously inside the
second. -/
def charsContain (pat : List Char) : List Char → Bool
  | [] => charsStartWith pat []
  | b :: s => charsStartWith pat (b :: s) || charsContain pat s

/-- Model of the Python membership test pat in s on strings. -/
def inStr (pat s : String) : Bool :=
  charsContain pat.data s.data

/-! ## Activity tracker (MCServer.outputHandler counting logic)

Identical in high-power.py lines 111-124 and proxy.py lines 123-136. -/

/-- Login marker tested against each output line (high-power.py line 111). -/
def joinMarker : String := "logged in with entity id"

/-- Logout marker tested against each output line (high-power.py line 113). -/
def leaveMarker : String := "left the game"

/-- One step of the player counter: increment if the line contains the join
marker, decrement if it contains the leave marker; both tests are
independent, so a line containing both leaves the counter unchanged
(high-power.py lines 111-114). -/
def trackerStep (playerCount : Int) (output : String) : Int :=
  let c1 := if inStr joinMarker output then playerCount + 1 else playerCount
  if inStr leaveMarker output then c1 - 1 else c1

/-- Net contribution of a single line to the player counter. -/
def lineNet (output : String) : Int :=
  (if inStr joinMarker output then 1 else 0) -
    (if inStr leaveMarker output then 1 else 0)

/-- Number of lines containing the join marker, as an integer. -/
def joinLines : List String → Int
  | [] => 0
  | out :: rest => (if inStr joinMarker out then 1 else 0) + joinLines rest

/-- Number of lines containing the leave marker, as an integer. -/
def leaveLines : List String → Int
  | [] => 0
  | out :: rest => (if inStr leaveMarker out then 1 else 0) + leaveLines rest

/-- Successive (counter, persisted active flag) pairs after each processed
line.  The flag written on each line is the Python truthiness test
if player_count: on the raw counter, i.e. nonzero (high-power.py
lines 116-124). -/
def trackerStates (playerCount : Int) : List String → List (Int × Bool)
  | [] => []
  | out :: rest =>
    let c2 := trackerStep playerCount out
    (c2, c2 != 0) :: trackerStates c2 rest

/-! ## Config store document and the module globals of high-power.py -/

/-- The persisted server.yml document, restricted to its mutable fields:
the shared shutdown flag and one player_active flag per worker
(index i models the key server_i). -/
structure ServerData where
  shutdownFlag : Bool
  playerActive : List Bool
  deriving DecidableEq

/-- Module-level state of high-power.py: the global server_used flag
(line 34, initialized to false and, because checkServerState lacks a
global declaration, never written by anything) together with the
in-memory server_data document. -/
structure Globals where
  serverUsed : Bool
  data : ServerData
  deriving DecidableEq

/-- Value computed into the function-local server_used variable by the loop
of checkServerState (high-power.py lines 143-156): scan the workers in
order, set the local to true and break at the first active one, set it to
false on each inactive one.  The result is the disjunction of the flags.
For an empty fleet the local is never assigned in the source; that case is
modeled as false and is never reached with a configured worker. -/
def checkServerStateLocal : List Bool → Bool
  | [] => false
  | a :: rest => if a then true else checkServerStateLocal rest

/-- Model of checkServerState (high-power.py lines 141-156).  The function
reads the player_active flags from the document and assigns the result of
the scan to server_used; since the function body contains an assignment to
server_used and no global declaration, that name is a fresh local for the
whole call, so the module globals are returned unchanged and the computed
value (the second component) is discarded when the call returns. -/
def checkServerState (g : Globals) : Globals × Bool :=
  (g, checkServerStateLocal g.data.playerActive)

/-! ## Shutdown coordinator (the shutdown function, high-power.py 158-203) -/

/-- Externally visible action of the shutdown coordinator. -/
inductive Event where
  /-- Assignment to the shutdown key of server_data followed by a full
  rewrite of server.yml. -/
  | persistShutdownFlag (b : Bool)
  /-- A call of time.sleep for the given number of seconds. -/
  | sleep (seconds : Nat)
  /-- A threading.Timer started with the given delay in seconds and
  checkServerState as its callback. -/
  | startTimer (seconds : Nat)
  /-- The host power-off command issued through os.system. -/
  | powerOff
  deriving DecidableEq

/-- Inner polling loop of shutdown (high-power.py lines 171-184): sleep 4
seconds, start a 16 second checkServerState timer, and break as soon as
the global server_used reads false.  The timer callback leaves the module
globals unchanged, so it is applied eagerly; on passes after the first the
source may skip starting a redundant timer while the previous one is still
alive, which has no effect on the globals or on control flow.  The fuel
argument bounds the number of iterations; none models the loop still
running when the fuel is exhausted. -/
def innerLoop : Nat → Globals → Option Globals × List Event
  | 0, _ => (none, [])
  | fuel + 1, g =>
    let g1 := (checkServerState g).1
    if !g1.serverUsed then
      (some g1, [Event.sleep 4, Event.startTimer 16])
    else
      let r := innerLoop fuel g1
      (r.1, Event.sleep 4 :: Event.startTimer 16 :: r.2)

/-- Outer loop of shutdown (high-power.py lines 169-192): run the inner
polling loop, then start the 900 second second-check timer and immediately
test the global server_used again, breaking to the shutdown commit when it
reads false.  The source does not wait for the 900 second timer to fire
before this test, and the timer callback leaves the globals unchanged. -/
def outerLoop : Nat → Globals → Option Globals × List Event
  | 0, _ => (none, [])
  | fuel + 1, g =>
    let r := innerLoop (fuel + 1) g
    match r.1 with
    | none => (none, r.2)
    | some g1 =>
      let g2 := (checkServerState g1).1
      if !g2.serverUsed then
        (some g2, r.2 ++ [Event.startTimer 900])
      else
        let r2 := outerLoop fuel g2
        (r2.1, r.2 ++ Event.startTimer 900 :: r2.2)

/-- Model of one run of the shutdown function (high-power.py lines
158-203): persist the shutdown flag as false, sleep 300 seconds, run the
polling loops, then persist the shutdown flag as true, sleep the 300
second drain interval and issue the host power-off command. -/
def shutdownRun (fuel : Nat) (g : Globals) : Option Globals × List Event :=
  let g0 : Globals := { g with data := { g.data with shutdownFlag := false } }
  let r := outerLoop fuel g0
  match r.1 with
  | none => (none, Event.persistShutdownFlag false :: Event.sleep 300 :: r.2)
  | some g1 =>
    (some { g1 with data := { g1.data with shutdownFlag := true } },
      Event.persistShutdownFlag false :: Event.sleep 300 :: r.2 ++
        [Event.persistShutdownFlag true, Event.sleep 300, Event.powerOff])

/-! ## Termination watch (MCServer.stop, high-power.py lines 72-93) -/

/-- Externally visible action of a termination watch thread. -/
inductive StopEvent where
  /-- A call of time.sleep for the given number of seconds. -/
  | sleep (seconds : Nat)
  /-- A read of the shared shutdown key of server_data, returning b. -/
  | readShutdownFlag (b : Bool)
  /-- Assignment of b to the player_active key of this worker followed by a
  full rewrite of server.yml. -/
  | persistPlayerActive (b : Bool)
  /-- The textual stop directive written to the process input stream. -/
  | sendStopDirective
  /-- Closing of this worker's socket to the proxy. -/
  | closeSocket
  /-- Thread exit through sys.exit. -/
  | exitThread
  deriving DecidableEq

/-- Polling loop of MCServer.stop (high-power.py lines 77-93): every
iteration sleeps 16 seconds and reads the shared shutdown flag; the list
obs supplies the value read at each poll.  On the first true it persists
player_active as false, writes the stop directive, closes the socket and
exits; the persisted value is the constant false and does not depend on
the worker's activity counter.  An exhausted list models the loop still
polling. -/
def stopLoop : List Bool → List StopEvent
  | [] => []
  | b :: rest =>
    StopEvent.sleep 16 :: StopEvent.readShutdownFlag b ::
      (if b then
        [StopEvent.persistPlayerActive false, StopEvent.sendStopDirective,
         StopEvent.closeSocket, StopEvent.exitThread]
      else stopLoop rest)

/-- Polling events of the termination watch for a run of observed flag
values none of which triggers the stop branch. -/
def stopPolls : List Bool → List StopEvent
  | [] => []
  | b :: rest =>
    StopEvent.sleep 16 :: StopEvent.readShutdownFlag b :: stopPolls rest

/-- Model of MCServer.stop: the initial 300 second grace sleep
(high-power.py line 74) followed by the polling loop. -/
def stopRun (obs : List Bool) : List StopEvent :=
  StopEvent.sleep 300 :: stopLoop obs

/-! ## Wake monitor (startHighPower, proxy.py lines 152-166) -/

/-- Externally visible action of the wake monitor thread. -/
inductive WakeEvent where
  /-- A call of time.sleep for the given number of seconds. -/
  | sleep (seconds : Nat)
  /-- A read of the player_active flag of the designated worker server_1,
  returning b. -/
  | readActive (b : Bool)
  /-- The magic packet sent to the configured hardware address. -/
  | sendMagicPacket
  deriving DecidableEq

/-- Inner loop of startHighPower (proxy.py lines 154-164): every iteration
sleeps 16 seconds and reads the designated worker's flag; the list obs
supplies the value read at each poll.  On the first true it sends one
magic packet and breaks; the boolean result records whether the packet was
sent within the supplied observations. -/
def wakeInner : List Bool → List WakeEvent × Bool
  | [] => ([], false)
  | b :: rest =>
    if b then
      ([WakeEvent.sleep 16, WakeEvent.readActive b, WakeEvent.sendMagicPacket],
       true)
    else
      let r := wakeInner rest
      (WakeEvent.sleep 16 :: WakeEvent.readActive b :: r.1, r.2)

/-- Polling events of the wake monitor for a run of observed flag values
none of which triggers the wake branch. -/
def pollEvents : List Bool → List WakeEvent
  | [] => []
  | b :: rest => WakeEvent.sleep 16 :: WakeEvent.readActive b :: pollEvents rest

/-- One pass of the outer loop of startHighPower: the inner polling loop
and, when the packet was sent, the 900 second cooldown sleep (proxy.py
line 166) during which no flag is read and no packet is sent. -/
def wakeCycle (obs : List Bool) : List WakeEvent :=
  let r := wakeInner obs
  r.1 ++ if r.2 then [WakeEvent.sleep 900] else []

/-! ## Worker session output handling (MCServer.outputHandler and
MCServer.__init__) -/

/-- Externally visible action of the output handler for one line. -/
inductive OutEvent where
  /-- One sendall call on the worker's socket carrying the given frame
  (high-power.py line 108). -/
  | relayFrame (frame : String)
  /-- Assignment of b to the player_active key of this worker followed by a
  full rewrite of server.yml (high-power.py lines 117-124). -/
  | persistActive (b : Bool)
  deriving DecidableEq

/-- In-memory state of one worker's output handler: the local player_count
variable and the shared server_data document. -/
structure SessionState where
  playerCount : Int
  data : ServerData
  deriving DecidableEq

/-- Assignment to the player_active key of worker sid followed by a full
rewrite of the document (the dict update plus yaml.dump pattern of
high-power.py lines 118-120 and 86-88). -/
def writePlayerActive (d : ServerData) (sid : Nat) (v : Bool) : ServerData :=
  { d with playerActive := d.playerActive.set sid v }

/-- The newline appended to each relayed line (high-power.py line 108). -/
def newlineStr : String := "\n"

/-- Model of one iteration of the output loop of MCServer.outputHandler
(high-power.py lines 102-124): strip the raw line, relay it with a newline
appended, update the counter from the two marker tests, re-derive the
active flag from the counter with the nonzero truthiness test, and persist
it unconditionally — the same write happens in both branches, whether or
not the line matched a marker and whether or not the flag changed. -/
def handleLine (sid : Nat) (st : SessionState) (raw : String) :
    SessionState × List OutEvent :=
  let output := pyRstrip raw
  let c2 := trackerStep st.playerCount output
  let active := c2 != 0
  (⟨c2, writePlayerActive st.data sid active⟩,
   [OutEvent.relayFrame (output ++ newlineStr), OutEvent.persistActive active])

/-- Model of the whole output loop over a list of raw lines. -/
def runHandler (sid : Nat) (st : SessionState) :
    List String → SessionState × List OutEvent
  | [] => (st, [])
  | raw :: rest =>
    let r := handleLine sid st raw
    let r2 := runHandler sid r.1 rest
    (r2.1, r.2 ++ r2.2)

/-- Frames carried by the relay events of an event list, in order. -/
def relayFrames (evs : List OutEvent) : List String :=
  evs.filterMap fun e =>
    match e with
    | OutEvent.relayFrame f => some f
    | OutEvent.persistActive _ => none

/-- All frames sent on one worker's relay connection: MCServer.__init__
sends the worker's display name as the first frame (high-power.py lines
57-59), and the output loop then sends one frame per processed line. -/
def connectionFrames (name : String) (sid : Nat) (st : SessionState)
    (lines : List String) : List String :=
  name :: relayFrames (runHandler sid st lines).2

/-! ## Concrete instances used by closed theorems -/

/-- A raw output line with trailing whitespace before its terminator. -/
def spacedLine : String := "hi \n"

/-- A display name for a concrete worker. -/
def exampleName : String := "survival"

/-- An initial session state for a one-worker fleet. -/
def exampleSession : SessionState := ⟨0, ⟨false, [false]⟩⟩

/-- Module state of high-power.py right after startup with one worker whose
player_active flag is true: server_used carries its initial value false
from line 34. -/
def activeFleet : Globals := ⟨false, ⟨false, [true]⟩⟩

/-- The same startup state with the single worker idle. -/
def idleFleet : Globals := ⟨false, ⟨false, [false]⟩⟩

/-- The frame actually relayed for spacedLine: trailing whitespace gone. -/
def strippedFrame : String := "hi\n"

/-- Recognizer for the stop-directive event. -/
def isSendStop (e : StopEvent) : Bool :=
  match e with
  | StopEvent.sendStopDirective => true
  | _ => false

/-- Recognizer for the socket-close event. -/
def isCloseSocket (e : StopEvent) : Bool :=
  match e with
  | StopEvent.closeSocket => true
  | _ => false

/-- Recognizer for the magic-packet event. -/
def isMagicPacket (e : WakeEvent) : Bool :=
  match e with
  | WakeEvent.sendMagicPacket => true
  | _ => false

/-- Value carried by a persistActive event, none for other events. -/
def persistedValue (e : OutEvent) : Option Bool :=
  match e with
  | OutEvent.persistActive b => some b
  | OutEvent.relayFrame _ => none

/-! ## Helper lemmas -/

theorem trackerStep_eq_lineNet (c : Int) (out : String) :
    trackerStep c out = c + lineNet out := by
  unfold trackerStep lineNet
  split <;> split <;> ring

theorem trackerStates_getElem (c : Int) (outputs : List String) :
    ∀ i, i < outputs.length →
      (trackerStates c outputs)[i]? =
        some (c + (joinLines (outputs.take (i + 1)) -
            leaveLines (outputs.take (i + 1))),
          (c + (joinLines (outputs.take (i + 1)) -
            leaveLines (outputs.take (i + 1)))) != 0) := by
  induction outputs generalizing c with
  | nil => intro i h; simp at h
  | cons out rest ih =>
    intro i h
    cases i with
    | zero =>
      have hs := trackerStep_eq_lineNet c out
      simp [trackerStates, joinLines, leaveLines, lineNet, hs]
    | succ j =>
      have h' : j < rest.length := by simpa using h
      have ihj := ih (trackerStep c out) j h'
      have hstep := trackerStep_eq_lineNet c out
      have harith :
          trackerStep c out +
              (joinLines (rest.take (j + 1)) - leaveLines (rest.take (j + 1))) =
            c + (joinLines ((out :: rest).take (j + 1 + 1)) -
              leaveLines ((out :: rest).take (j + 1 + 1))) := by
        simp [List.take_succ_cons, joinLines, leaveLines, hstep, lineNet]
        ring
      simp only [trackerStates, List.getElem?_cons_succ]
      rw [ihj, harith]

theorem stopLoop_countP_send (obs : List Bool) :
    (stopLoop obs).countP isSendStop =
      (if obs.any (fun b => b) then 1 else 0) := by
  induction obs with
  | nil => rfl
  | cons b rest ih =>
    cases b
    · simpa [stopLoop, List.countP_cons, isSendStop] using ih
    · rfl

theorem stopLoop_countP_close (obs : List Bool) :
    (stopLoop obs).countP isCloseSocket =
      (if obs.any (fun b => b) then 1 else 0) := by
  induction obs with
  | nil => rfl
  | cons b rest ih =>
    cases b
    · simpa [stopLoop, List.countP_cons, isCloseSocket] using ih
    · rfl

theorem stopLoop_first_true (fs rest : List Bool) (h : ∀ b ∈ fs, b = false) :
    stopLoop (fs ++ true :: rest) =
      stopPolls fs ++
        [StopEvent.sleep 16, StopEvent.readShutdownFlag true,
         StopEvent.persistPlayerActive false, StopEvent.sendStopDirective,
         StopEvent.closeSocket, StopEvent.exitThread] := by
  induction fs with
  | nil => rfl
  | cons b fs ih =>
    have hb : b = false := h b (by simp)
    subst hb
    simp [stopLoop, stopPolls, ih (fun x hx => h x (by simp [hx]))]

theorem wakeInner_skip (fs rest : List Bool) (h : ∀ b ∈ fs, b = false) :
    wakeInner (fs ++ true :: rest) =
      (pollEvents fs ++ [WakeEvent.sleep 16, WakeEvent.readActive true,
        WakeEvent.sendMagicPacket], true) := by
  induction fs with
  | nil => rfl
  | cons b fs ih =>
    have hb : b = false := h b (by simp)
    subst hb
    simp [wakeInner, pollEvents, ih (fun x hx => h x (by simp [hx]))]

theorem pollEvents_countP_packet (fs : List Bool) :
    (pollEvents fs).countP isMagicPacket = 0 := by
  induction fs with
  | nil => rfl
  | cons b fs ih => simp [pollEvents, List.countP_cons, isMagicPacket, ih]

theorem runHandler_relayFrames (sid : Nat) (st : SessionState)
    (lines : List String) :
    relayFrames (runHandler sid st lines).2 =
      lines.map (fun l => pyRstrip l ++ newlineStr) := by
  induction lines generalizing st with
  | nil => rfl
  | cons raw rest ih =>
    simp [runHandler, handleLine, relayFrames, List.filterMap_append]
    simpa [relayFrames] using ih _

/-! ## Claim theorems -/

/-- C1.  The claim states that activity found at either confirmation check
resets the episode and prevents shutdown.  In the source it does not: with
one worker whose player_active flag is true at every check (so every run
of the check loop computes the value true), the shutdown run still
commits, persists the shutdown flag as true and issues the power-off
command, because checkServerState assigns its result to a function-local
server_used and the coordinator only ever reads the untouched module
global. -/
theorem C1_shutdown_fires_despite_activity :
    checkServerStateLocal activeFleet.data.playerActive = true ∧
    (shutdownRun 1 activeFleet).1 = some ⟨false, ⟨true, [true]⟩⟩ ∧
    Event.powerOff ∈ (shutdownRun 1 activeFleet).2 := by decide

/-- C2.  The claim states that the used result observed by the idle monitor
is the disjunction of the workers' active flags.  In the source the scan
computes that disjunction into a function-local variable (second
component, here true for an active fleet), while the globals the monitor
reads are returned unchanged, with server_used still false. -/
theorem C2_observed_usage_never_updated :
    (checkServerState activeFleet).2 = true ∧
    (checkServerState activeFleet).1.serverUsed = false ∧
    (checkServerState activeFleet).1 = activeFleet := by decide

/-- C3.  After each processed line the running counter equals the number of
lines so far containing the join marker minus the number containing the
leave marker, with no clamping, and the persisted active flag is the
nonzero test on that raw counter at every intermediate step. -/
theorem C3_counter_matches_markers (outputs : List String) (i : Nat)
    (h : i < outputs.length) :
    (trackerStates 0 outputs)[i]? =
      some (joinLines (outputs.take (i + 1)) - leaveLines (outputs.take (i + 1)),
        (joinLines (outputs.take (i + 1)) -
          leaveLines (outputs.take (i + 1))) != 0) := by
  simpa using trackerStates_getElem 0 outputs i h

/-- Witness for C3: a join line followed by a leave line ends at counter 0
with the flag false, and join, join, leave ends at counter 1 with the flag
true. -/
theorem C3_counter_matches_markers_witness :
    (trackerStates 0 [joinMarker, leaveMarker])[1]? = some (0, false) ∧
    (trackerStates 0 [joinMarker, joinMarker, leaveMarker])[2]? =
      some (1, true) := by
  constructor
  · have h := C3_counter_matches_markers [joinMarker, leaveMarker] 1 (by decide)
    rw [h]; decide
  · have h := C3_counter_matches_markers [joinMarker, joinMarker, leaveMarker] 2
      (by decide)
    rw [h]; decide

/-- C4.  The claim states that the second confirmation is an independent
check whose agreement is required before commit.  In the source the event
trace of a shutdown run is identical for an active and an idle fleet, and
the commit of the shutdown flag follows the start of the 900 second
second-check timer immediately, with no intervening wait or read: the
second check's result never gates the decision. -/
theorem C4_second_check_never_gates :
    (shutdownRun 1 activeFleet).2 = (shutdownRun 1 idleFleet).2 ∧
    (shutdownRun 1 activeFleet).2 =
      [Event.persistShutdownFlag false, Event.sleep 300, Event.sleep 4,
       Event.startTimer 16, Event.startTimer 900,
       Event.persistShutdownFlag true, Event.sleep 300, Event.powerOff] := by
  decide

/-- C5.  Per shutdown run the shared shutdown flag is persisted as false
first, persisted as true exactly once, and after that write the
coordinator sleeps the 300 second drain interval and then issues the host
power-off command. -/
theorem C5_flag_lifecycle (fuel : Nat) (g : Globals)
    (hg : g.serverUsed = false) (hf : 1 ≤ fuel) :
    ((shutdownRun fuel g).2).head? = some (Event.persistShutdownFlag false) ∧
    ((shutdownRun fuel g).2).countP
      (fun e => e == Event.persistShutdownFlag true) = 1 ∧
    ∃ pre, (shutdownRun fuel g).2 =
      pre ++ [Event.persistShutdownFlag true, Event.sleep 300,
        Event.powerOff] := by
  obtain ⟨n, rfl⟩ : ∃ n, fuel = n + 1 := ⟨fuel - 1, by omega⟩
  have htr : (shutdownRun (n + 1) g).2 =
      [Event.persistShutdownFlag false, Event.sleep 300, Event.sleep 4,
       Event.startTimer 16, Event.startTimer 900,
       Event.persistShutdownFlag true, Event.sleep 300, Event.powerOff] := by
    simp [shutdownRun, outerLoop, innerLoop, checkServerState, hg]
  refine ⟨by rw [htr]; rfl, by rw [htr]; rfl,
    ⟨[Event.persistShutdownFlag false, Event.sleep 300, Event.sleep 4,
      Event.startTimer 16, Event.startTimer 900], by rw [htr]; rfl⟩⟩

/-- Witness for C5 at the concrete startup state with one active worker. -/
theorem C5_flag_lifecycle_witness :
    ((shutdownRun 1 activeFleet).2).head? =
      some (Event.persistShutdownFlag false) ∧
    ((shutdownRun 1 activeFleet).2).countP
      (fun e => e == Event.persistShutdownFlag true) = 1 ∧
    ∃ pre, (shutdownRun 1 activeFleet).2 =
      pre ++ [Event.persistShutdownFlag true, Event.sleep 300,
        Event.powerOff] :=
  C5_flag_lifecycle 1 activeFleet rfl (by decide)

/-- C6.  The termination watch first sleeps the 300 second grace delay,
then polls the shared flag every 16 seconds; across any run of observed
flag values it writes the stop directive exactly once when some poll reads
true and never otherwise, and likewise closes its socket exactly once. -/
theorem C6_one_stop_directive (obs : List Bool) :
    (stopRun obs).head? = some (StopEvent.sleep 300) ∧
    (stopRun obs).countP isSendStop =
      (if obs.any (fun b => b) then 1 else 0) ∧
    (stopRun obs).countP isCloseSocket =
      (if obs.any (fun b => b) then 1 else 0) := by
  refine ⟨rfl, ?_, ?_⟩
  · simpa [stopRun, List.countP_cons, isSendStop] using stopLoop_countP_send obs
  · simpa [stopRun, List.countP_cons, isCloseSocket] using
      stopLoop_countP_close obs

/-- C7.  In one pass of the wake monitor, polls that read false only sleep
and read; on the first poll that reads true exactly one magic packet is
sent and the only event after it is the 900 second cooldown sleep — later
observations, even ones that read true again, are never reached within
the cooldown window. -/
theorem C7_wake_once (fs rest : List Bool) (h : ∀ b ∈ fs, b = false) :
    wakeCycle (fs ++ true :: rest) =
      pollEvents fs ++ [WakeEvent.sleep 16, WakeEvent.readActive true,
        WakeEvent.sendMagicPacket, WakeEvent.sleep 900] ∧
    (wakeCycle (fs ++ true :: rest)).countP isMagicPacket = 1 := by
  have hw := wakeInner_skip fs rest h
  constructor
  · simp [wakeCycle, hw]
  · simp [wakeCycle, hw, List.countP_append, isMagicPacket,
      pollEvents_countP_packet]

/-- Witness for C7: one idle poll, then an active poll, with the flag still
true afterwards; exactly one packet is sent. -/
theorem C7_wake_once_witness :
    wakeCycle ([false] ++ true :: [true, true]) =
      pollEvents [false] ++ [WakeEvent.sleep 16, WakeEvent.readActive true,
        WakeEvent.sendMagicPacket, WakeEvent.sleep 900] ∧
    (wakeCycle ([false] ++ true :: [true, true])).countP isMagicPacket = 1 :=
  C7_wake_once [false] [true, true] (by decide)

/-- C8.  Every processed line, matched or not, produces exactly one persist
event whose value is re-derived from the new counter by the nonzero test,
the stored document is rewritten through writePlayerActive on every line,
and persisting the same value twice yields the same final document. -/
theorem C8_persist_every_line (sid : Nat) (st : SessionState) (raw : String) :
    (handleLine sid st raw).2.filterMap persistedValue =
      [(handleLine sid st raw).1.playerCount != 0] ∧
    (handleLine sid st raw).1.data =
      writePlayerActive st.data sid
        ((handleLine sid st raw).1.playerCount != 0) ∧
    ∀ (d : ServerData) (v : Bool),
      writePlayerActive (writePlayerActive d sid v) sid v =
        writePlayerActive d sid v := by
  refine ⟨rfl, rfl, fun d v => ?_⟩
  simp [writePlayerActive, List.set_set]

/-- C9 counterexample.  The claim states each relayed frame contains the
process output line verbatim; for a line with trailing whitespace the
relayed frame is the stripped line, which differs from the raw line both
as is and with a newline appended. -/
theorem C9_cex_not_verbatim :
    connectionFrames exampleName 0 exampleSession [spacedLine] =
      [exampleName, strippedFrame] ∧
    strippedFrame ≠ spacedLine ∧
    strippedFrame ≠ spacedLine ++ newlineStr := by decide

/-- C9 as amended.  On each worker's relay connection the first frame is
the worker's display name, and thereafter exactly one frame is sent per
process output line, containing that line with trailing whitespace
removed and a newline appended. -/
theorem C9_frames_amended (name : String) (sid : Nat) (st : SessionState)
    (lines : List String) :
    connectionFrames name sid st lines =
      name :: lines.map (fun l => pyRstrip l ++ newlineStr) := by
  simp [connectionFrames, runHandler_relayFrames]

/-- C10.  When the termination watch first observes the shutdown flag true,
it persists the worker's player_active flag as the constant false —
independent of any activity counter — and rewrites the config store
before writing the stop directive, then closes the socket and exits. -/
theorem C10_persist_idle_before_stop (fs rest : List Bool)
    (h : ∀ b ∈ fs, b = false) :
    stopRun (fs ++ true :: rest) =
      (StopEvent.sleep 300 :: stopPolls fs ++
        [StopEvent.sleep 16, StopEvent.readShutdownFlag true]) ++
        [StopEvent.persistPlayerActive false, StopEvent.sendStopDirective,
         StopEvent.closeSocket, StopEvent.exitThread] := by
  simp [stopRun, stopLoop_first_true fs rest h]

/-- Witness for C10: one idle poll, then the flag observed true. -/
theorem C10_persist_idle_before_stop_witness :
    stopRun ([false] ++ true :: []) =
      (StopEvent.sleep 300 :: stopPolls [false] ++
        [StopEvent.sleep 16, StopEvent.readShutdownFlag true]) ++
        [StopEvent.persistPlayerActive false, StopEvent.sendStopDirective,
         StopEvent.closeSocket, StopEvent.exitThread] :=
  C10_persist_idle_before_stop [false] [] (by decide)

end MCM
